import Mathlib

/-!
# Verification of the currency-converter offline cache and mode controller

Shallow embedding of `src/utils/cacheManager.js` (class `CacheManager`) and of
the network-status hook `useNetworkStatus` (handlers `handleOnline`,
`handleOffline`, and the actions `toggleOfflineMode`, `exitOfflineMode`).

Modelling choices:
* `localStorage` is modelled by `Storage`: one slot per key the code touches
  (`currencyRatesCache`, `lastCacheUpdate`, `isOfflineMode`), plus a `failing`
  flag under which every storage access throws (quota / security errors).
  Operations that the source wraps in `try { } catch { }` are total Lean
  functions; an operation whose storage access is *not* guarded returns
  `Except Unit` so a thrown storage error is visible to the caller.
* The string stored under `currencyRatesCache` is represented by the outcome
  of `JSON.parse` on it: either a well-formed `CacheData` record or `corrupt`
  (a string on which `JSON.parse` throws, or a falsy/empty string).
* JS numbers are modelled by `ℚ`; `Date.now()` values by `Int` parameters.
* JS truthiness of `cache.rates[c]` is `jsTruthy`: `undefined` (absent key)
  and `0` are falsy, every other number is truthy.
-/

/-- The parse outcome of the string stored under `currencyRatesCache`:
`{rates, baseCurrency, timestamp, lastUpdate}` as built by
`saveRatesToCache`. -/
structure CacheData where
  rates : List (String × ℚ)
  baseCurrency : String
  timestamp : Int
  lastUpdate : String
deriving Repr, DecidableEq

/-- A stored snapshot string, viewed through `JSON.parse`: `json c` when the
parse yields a cache record `c`, `corrupt` when the stored string is falsy or
`JSON.parse` throws on it. -/
inductive SnapVal where
  | json (c : CacheData)
  | corrupt
deriving Repr, DecidableEq

/-- The three `localStorage` slots the code touches, plus a `failing` flag:
when `failing = true` every `getItem`/`setItem`/`removeItem` throws. -/
structure Storage where
  cacheKey : Option SnapVal
  lastUpdateKey : Option String
  offlineKey : Option String
  failing : Bool
deriving Repr, DecidableEq

/-- `CACHE_EXPIRY_HOURS * 60 * 60 * 1000`: 24 hours in milliseconds. -/
def maxAgeMs : Int := 24 * 60 * 60 * 1000

/-- Longest prefix of digit characters, as used by JS `parseInt`. -/
def leadingDigits : List Char → List Char
  | [] => []
  | c :: cs => if c.isDigit then c :: leadingDigits cs else []

/-- Fold a nonempty digit list to a number; `none` on an empty list (NaN). -/
def digitsToNat : List Char → Option Nat
  | [] => none
  | cs => some (cs.foldl (fun a c => a * 10 + (c.toNat - 48)) 0)

/-- JS `parseInt` (base 10) on a string: optional sign then the longest digit
run; `none` models `NaN`. -/
def parseIntJS (s : String) : Option Int :=
  match s.data with
  | '-' :: rest => (digitsToNat (leadingDigits rest)).map (fun n => -(n : Int))
  | cs => (digitsToNat (leadingDigits cs)).map (fun n => (n : Int))

/-- JS `(now - parseInt s) > maxAge`; when `parseInt` gives `NaN` every
comparison is false. -/
def ageExceeds (now : Int) (s : String) (maxAge : Int) : Bool :=
  match parseIntJS s with
  | some t => decide (now - t > maxAge)
  | none => false

/-- Property lookup `rates[c]` on the JS object, first binding wins. -/
def lookupRate : List (String × ℚ) → String → Option ℚ
  | [], _ => none
  | (k, v) :: rest, c => if k = c then some v else lookupRate rest c

/-- JS truthiness of `rates[c]`: `undefined` and `0` are falsy. -/
def jsTruthy : Option ℚ → Bool
  | some q => decide (q ≠ 0)
  | none => false

/-- `Object.keys` of the JS object modelled by the association list. -/
def objKeys (l : List (String × ℚ)) : List String :=
  (l.map Prod.fst).eraseDups

/-- `new Date(ms).toISOString()` rendering (never read back by the code). -/
def toISOString (now : Int) : String := toString now ++ "Z"

/-- `new Date(ms).toLocaleString()` rendering; `none` is `NaN` input. -/
def toLocaleString : Option Int → String
  | some n => "locale:" ++ toString n
  | none => "Invalid Date"

/-- `CacheManager.saveRatesToCache(ratesData, baseCurrency)`: inside
`try { }`, builds the cache record with `timestamp = Date.now()` and writes
the snapshot and the last-update keys; any storage error is caught and the
call no-ops. -/
def saveRatesToCache (ratesData : List (String × ℚ)) (baseCurrency : String)
    (now : Int) (st : Storage) : Storage :=
  if st.failing then st
  else
    { st with
      cacheKey := some (SnapVal.json
        { rates := ratesData, baseCurrency := baseCurrency,
          timestamp := now, lastUpdate := toISOString now }),
      lastUpdateKey := some (toString now) }

/-- `CacheManager.clearCache()`: inside `try { }`, removes the snapshot, the
last-update and the offline-mode keys; storage errors are caught. -/
def clearCache (st : Storage) : Storage :=
  if st.failing then st
  else { st with cacheKey := none, lastUpdateKey := none, offlineKey := none }

/-- `CacheManager.getCachedRates()`: inside `try { }`, reads both keys,
returns `null` if either is falsy, parses the snapshot, and if
`Date.now() - parseInt(lastUpdate) > maxAge` clears the cache and returns
`null`; a thrown storage or parse error is caught and yields `null` with no
further effect. -/
def getCachedRates (now : Int) (st : Storage) : Option CacheData × Storage :=
  if st.failing then (none, st)
  else
    match st.cacheKey, st.lastUpdateKey with
    | some sv, some lu =>
      match sv with
      | SnapVal.corrupt => (none, st)
      | SnapVal.json cache =>
        if ageExceeds now lu maxAgeMs then (none, clearCache st)
        else (some cache, st)
    | _, _ => (none, st)

/-- `CacheManager.getCachedRate(fromCurrency, toCurrency)`: loads the cache,
then first match wins among the direct (`baseCurrency === from &&
rates[to]`), inverse (`baseCurrency === to && rates[from]`) and cross
(`rates[from] && rates[to]`) branches, with JS truthiness on the rate
values. -/
def getCachedRate (fromCurrency toCurrency : String) (now : Int)
    (st : Storage) : Option ℚ × Storage :=
  match getCachedRates now st with
  | (none, st1) => (none, st1)
  | (some cache, st1) =>
    let rTo := lookupRate cache.rates toCurrency
    let rFrom := lookupRate cache.rates fromCurrency
    if cache.baseCurrency = fromCurrency ∧ jsTruthy rTo then (rTo, st1)
    else if cache.baseCurrency = toCurrency ∧ jsTruthy rFrom then
      ((rFrom.map (fun q => 1 / q)), st1)
    else if jsTruthy rFrom ∧ jsTruthy rTo then
      (some (rTo.getD 0 / rFrom.getD 0), st1)
    else (none, st1)

/-- `CacheManager.hasRate(from, to)`: `getCachedRate(...) !== null`. -/
def hasRate (fromCurrency toCurrency : String) (now : Int) (st : Storage) :
    Bool × Storage :=
  match getCachedRate fromCurrency toCurrency now st with
  | (r, st1) => (r.isSome, st1)

/-- The record returned by `getCacheInfo`. -/
structure CacheInfo where
  hasCache : Bool
  lastUpdate : Option String
  baseCurrency : Option String
  rateCount : Nat
  isExpired : Bool
deriving Repr, DecidableEq

/-- JS `x || null` on an optional string: `undefined` and `""` give null. -/
def jsOrNull : Option String → Option String
  | some s => if s = "" then none else some s
  | none => none

/-- `CacheManager.getCacheInfo()`: its first `localStorage.getItem` is NOT
inside any `try { }`, so a throwing storage propagates (`Except.error`);
otherwise it reads the last-update key, calls `getCachedRates` (which may
purge an expired snapshot), and assembles the info record. -/
def getCacheInfo (now : Int) (st : Storage) :
    Except Unit (CacheInfo × Storage) :=
  if st.failing then Except.error ()
  else
    let lastUpdate := st.lastUpdateKey
    match getCachedRates now st with
    | (cacheOpt, st1) =>
      Except.ok
        ({ hasCache := cacheOpt.isSome,
           lastUpdate := (jsOrNull lastUpdate).map
             (fun s => toLocaleString (parseIntJS s)),
           baseCurrency := jsOrNull (cacheOpt.map CacheData.baseCurrency),
           rateCount := match cacheOpt with
             | some c => (objKeys c.rates).length
             | none => 0,
           isExpired := match cacheOpt with
             | some _ => ageExceeds now (lastUpdate.getD "") maxAgeMs
             | none => true }, st1)

/-- `CacheManager.setOfflineStatus(isOffline)`: inside `try { }`, stores
`isOffline.toString()`; errors are caught and the call no-ops. -/
def setOfflineStatus (isOffline : Bool) (st : Storage) : Storage :=
  if st.failing then st
  else { st with offlineKey := some (if isOffline then "true" else "false") }

/-- `CacheManager.getOfflineStatus()`: inside `try { }`, reads the key and
compares with `"true"`; on a storage error returns `false`. -/
def getOfflineStatus (st : Storage) : Bool :=
  if st.failing then false
  else decide (st.offlineKey = some "true")

/-- In-memory React state of `useNetworkStatus` plus the storage it reads
and writes: `isOnline` mirrors `navigator.onLine`, `isOfflineMode` is the
hook's offline-mode state. -/
structure NetState where
  isOnline : Bool
  isOfflineMode : Bool
  storage : Storage
deriving Repr, DecidableEq

/-- Hook initialisation: `useState(navigator.onLine)` and
`useState(CacheManager.getOfflineStatus())`. -/
def initNetState (navigatorOnLine : Bool) (st : Storage) : NetState :=
  { isOnline := navigatorOnLine, isOfflineMode := getOfflineStatus st,
    storage := st }

/-- `handleOnline`: sets `isOnline` to true; then, only when the persisted
flag read by `CacheManager.getOfflineStatus()` is false, sets
`isOfflineMode` to false. It never writes the persisted flag. -/
def handleOnline (s : NetState) : NetState :=
  let s1 := { s with isOnline := true }
  if getOfflineStatus s1.storage = false then { s1 with isOfflineMode := false }
  else s1

/-- `handleOffline`: sets `isOnline` false, `isOfflineMode` true, and
persists the flag via `CacheManager.setOfflineStatus(true)`. -/
def handleOffline (s : NetState) : NetState :=
  { s with
    isOnline := false, isOfflineMode := true,
    storage := setOfflineStatus true s.storage }

/-- `toggleOfflineMode`: flips the in-memory mode and persists the new
value. -/
def toggleOfflineMode (s : NetState) : NetState :=
  let newOfflineMode := !s.isOfflineMode
  { s with
    isOfflineMode := newOfflineMode,
    storage := setOfflineStatus newOfflineMode s.storage }

/-- `exitOfflineMode`: when `isOnline`, clears the in-memory mode and the
persisted flag; otherwise only logs to the console. The JS function has no
return statement on either path, so the caller receives `undefined` in both
cases — modelled by the `Unit` component of the result. -/
def exitOfflineMode (s : NetState) : NetState × Unit :=
  if s.isOnline then
    ({ s with
       isOfflineMode := false,
       storage := setOfflineStatus false s.storage }, ())
  else (s, ())

/-! ## Concrete states used by witnesses and counterexamples -/

/-- Rate table of the spec's worked scenario. -/
def exRates : List (String × ℚ) := [("INR", 83), ("EUR", 92 / 100)]

/-- Snapshot for the scenario: base `USD`, captured at time 0. -/
def exCache : CacheData :=
  { rates := exRates, baseCurrency := "USD", timestamp := 0,
    lastUpdate := toISOString 0 }

/-- Storage holding the scenario snapshot, written at time 0. -/
def exStorage : Storage :=
  { cacheKey := some (SnapVal.json exCache), lastUpdateKey := some "0",
    offlineKey := none, failing := false }

/-- Storage holding the scenario snapshot together with a set mode flag,
written at time 0 (expired once `now` exceeds `maxAgeMs`). -/
def expiredStorage : Storage :=
  { cacheKey := some (SnapVal.json exCache), lastUpdateKey := some "0",
    offlineKey := some "true", failing := false }

/-- Storage whose snapshot string does not parse. -/
def corruptStorage : Storage :=
  { cacheKey := some SnapVal.corrupt, lastUpdateKey := some "0",
    offlineKey := some "true", failing := false }

/-- Empty, healthy storage. -/
def emptyStorage : Storage :=
  { cacheKey := none, lastUpdateKey := none, offlineKey := none,
    failing := false }

/-- Storage on which every access throws. -/
def failingStorage : Storage :=
  { cacheKey := none, lastUpdateKey := none, offlineKey := none,
    failing := true }

/-- Storage with the mode flag persisted as `"false"`. -/
def flagFalseStorage : Storage :=
  { cacheKey := none, lastUpdateKey := none, offlineKey := some "false",
    failing := false }

/-- Storage with the mode flag persisted as `"true"`. -/
def flagTrueStorage : Storage :=
  { cacheKey := none, lastUpdateKey := none, offlineKey := some "true",
    failing := false }

/-- Controller state: disconnected, in offline mode, flag persisted. -/
def offlineDisconnected : NetState :=
  { isOnline := false, isOfflineMode := true, storage := flagTrueStorage }

/-- Controller state: connected but still in offline mode. -/
def onlineFlagged : NetState :=
  { isOnline := true, isOfflineMode := true, storage := flagTrueStorage }

/-- Storage holding a snapshot record but no last-update key. -/
def noTimestampStorage : Storage :=
  { cacheKey := some (SnapVal.json exCache), lastUpdateKey := none,
    offlineKey := none, failing := false }

/-- Resolution order exactly as the specification words it: direct when
`from` is the base and `to` is a cached key, else inverse when `to` is the
base and `from` is a cached key, else cross-rate when both are cached keys,
else absent. Written from the spec for comparison with `getCachedRate`. -/
def resolveSpec (B : String) (rates : List (String × ℚ))
    (fromC toC : String) : Option ℚ :=
  let rTo := lookupRate rates toC
  let rFrom := lookupRate rates fromC
  if B = fromC ∧ rTo.isSome then rTo
  else if B = toC ∧ rFrom.isSome then rFrom.map (fun q => 1 / q)
  else if rFrom.isSome ∧ rTo.isSome then some (rTo.getD 0 / rFrom.getD 0)
  else none

/-! ## Helper lemmas -/

/-- A lookup in a table of strictly positive rates yields a positive value. -/
theorem lookupRate_pos {rates : List (String × ℚ)}
    (hpos : ∀ p ∈ rates, 0 < p.2) {c : String} {q : ℚ}
    (h : lookupRate rates c = some q) : 0 < q := by
  induction rates with
  | nil => simp [lookupRate] at h
  | cons p rest ih =>
    obtain ⟨k, v⟩ := p
    simp only [lookupRate] at h
    by_cases hk : k = c
    · rw [if_pos hk] at h
      have hv := hpos (k, v) (List.mem_cons_self _ _)
      obtain rfl : v = q := by injection h
      exact hv
    · rw [if_neg hk] at h
      exact ih (fun x hx => hpos x (List.mem_cons_of_mem _ hx)) h

/-- On a table of strictly positive rates, the JS truthiness of `rates[c]`
coincides with key membership. -/
theorem jsTruthy_eq_isSome {rates : List (String × ℚ)}
    (hpos : ∀ p ∈ rates, 0 < p.2) (c : String) :
    jsTruthy (lookupRate rates c) = (lookupRate rates c).isSome := by
  cases h : lookupRate rates c with
  | none => rfl
  | some q => simp [jsTruthy, (lookupRate_pos hpos h).ne']

/-- Truthiness of an optional rate unpacked. -/
theorem jsTruthy_iff (o : Option ℚ) :
    jsTruthy o = true ↔ ∃ q, o = some q ∧ q ≠ 0 := by
  cases o with
  | none => simp [jsTruthy]
  | some q => simp [jsTruthy]

/-- Loading from a healthy storage holding an unexpired snapshot returns it
and leaves the storage unchanged. -/
theorem getCachedRates_fresh {st : Storage} {cache : CacheData} {lu : String}
    {now : Int} (hfail : st.failing = false)
    (hsnap : st.cacheKey = some (SnapVal.json cache))
    (hlu : st.lastUpdateKey = some lu)
    (hexp : ageExceeds now lu maxAgeMs = false) :
    getCachedRates now st = (some cache, st) := by
  simp [getCachedRates, hfail, hsnap, hlu, hexp]

/-! ## The claims -/

/-- C1: for every stored, unexpired snapshot whose rate values are strictly
positive, `getCachedRate(from, to)` resolves exactly in the spec's order —
direct `rates[to]` when `from` is the base, else inverse `1 / rates[from]`
when `to` is the base, else cross `rates[to] / rates[from]` when both are
cached, else absent — and the storage is left unchanged. -/
theorem c1_getCachedRate_resolution (st : Storage) (cache : CacheData)
    (lu fromCurrency toCurrency : String) (now : Int)
    (hfail : st.failing = false)
    (hsnap : st.cacheKey = some (SnapVal.json cache))
    (hlu : st.lastUpdateKey = some lu)
    (hexp : ageExceeds now lu maxAgeMs = false)
    (hpos : ∀ p ∈ cache.rates, 0 < p.2) :
    getCachedRate fromCurrency toCurrency now st =
      (resolveSpec cache.baseCurrency cache.rates fromCurrency toCurrency,
       st) := by
  have hload := getCachedRates_fresh hfail hsnap hlu hexp
  simp only [getCachedRate, hload, resolveSpec, jsTruthy_eq_isSome hpos]
  split_ifs <;> rfl

/-- Witness for C1 on the spec's scenario snapshot (base `USD`, rates for
`INR` and `EUR`, captured at time 0, read at time 0). -/
theorem c1_witness :
    getCachedRate "EUR" "INR" 0 exStorage =
      (resolveSpec exCache.baseCurrency exCache.rates "EUR" "INR",
       exStorage) :=
  c1_getCachedRate_resolution exStorage exCache "0" "EUR" "INR" 0
    rfl rfl rfl rfl (by norm_num [exCache, exRates])

/-- C2: evaluating the controller on the claim's own scenario — start
`Online` with the persisted flag `"false"`, receive `networkLost`, then
`networkRestored` with no intervening user action. The code ends with
`isOfflineMode = true` and the persisted flag still `"true"` (the state
`onlineFlagged`): it does not return to `Online` and the flag is not reset,
because `handleOffline` persists the very flag whose falsity `handleOnline`
requires for auto-recovery. This contradicts the code's own comment ("If
user didn't manually enable offline mode, exit offline mode") as well as
the claim. -/
theorem c2_auto_recovery_fails :
    handleOnline (handleOffline (initNetState true flagFalseStorage)) =
      onlineFlagged := by
  rfl

/-- C3 counterexample: on an expired snapshot the claim fails —
`getCacheInfo` purges. This concrete call maps the storage to
`emptyStorage` (all three keys removed), while the prior state
`expiredStorage` still held the snapshot, the timestamp and the mode
flag. -/
theorem c3_cex_describe_purges :
    (getCacheInfo (maxAgeMs + 1) expiredStorage).map (fun p => p.2) =
      Except.ok emptyStorage ∧
    expiredStorage.cacheKey ≠ none ∧
    expiredStorage.lastUpdateKey ≠ none ∧
    expiredStorage.offlineKey ≠ none :=
  ⟨rfl, by decide, by decide, by decide⟩

/-- C3 (amended): `getCacheInfo` computes its status consistently with
`load`: its storage effect is exactly that of the internal `getCachedRates`
call — no change when the snapshot is absent, corrupt or unexpired, but
the expiry purge when it is expired — `hasCache` is the presence of the
loaded snapshot, and `isExpired` is true exactly when no unexpired
snapshot was loaded. -/
theorem c3_describe_effect (st : Storage) (now : Int)
    (hfail : st.failing = false) :
    (getCacheInfo now st).map
      (fun p => (p.1.hasCache, p.1.isExpired, p.2)) =
      Except.ok ((getCachedRates now st).1.isSome,
        (getCachedRates now st).1.isNone, (getCachedRates now st).2) := by
  obtain ⟨ck, lk, ofk, fl⟩ := st
  simp only at hfail
  subst hfail
  cases ck with
  | none => rfl
  | some sv =>
    cases lk with
    | none => cases sv <;> rfl
    | some s =>
      cases sv with
      | corrupt => rfl
      | json c =>
        cases hexp : ageExceeds now s maxAgeMs with
        | false => simp [getCacheInfo, getCachedRates, hexp, Except.map]
        | true => simp [getCacheInfo, getCachedRates, hexp, clearCache,
            Except.map]

/-- Witness for the amended C3 on the unexpired scenario storage. -/
theorem c3_witness :
    (getCacheInfo 0 exStorage).map
      (fun p => (p.1.hasCache, p.1.isExpired, p.2)) =
      Except.ok ((getCachedRates 0 exStorage).1.isSome,
        (getCachedRates 0 exStorage).1.isNone,
        (getCachedRates 0 exStorage).2) :=
  c3_describe_effect exStorage 0 rfl

/-- C4: loading a snapshot stored more than 24 hours ago (the persisted
last-update string parses to `t` with `now - t > maxAgeMs`) returns absent
and purges all three keys — snapshot, duplicate timestamp and mode flag —
and a subsequent `getCacheInfo` reports no snapshot. -/
theorem c4_expired_purge (st : Storage) (cache : CacheData) (lu : String)
    (now t : Int) (hfail : st.failing = false)
    (hsnap : st.cacheKey = some (SnapVal.json cache))
    (hlu : st.lastUpdateKey = some lu)
    (ht : parseIntJS lu = some t) (hage : now - t > maxAgeMs) :
    getCachedRates now st =
      (none, { st with
        cacheKey := none, lastUpdateKey := none, offlineKey := none }) ∧
    (getCacheInfo now (getCachedRates now st).2).map (fun p => p.1.hasCache) =
      Except.ok false := by
  have hexp : ageExceeds now lu maxAgeMs = true := by
    simp [ageExceeds, ht, hage]
  have hclear : clearCache st = { st with
      cacheKey := none, lastUpdateKey := none, offlineKey := none } := by
    simp [clearCache, hfail]
  have hload : getCachedRates now st = (none, clearCache st) := by
    simp [getCachedRates, hfail, hsnap, hlu, hexp]
  refine ⟨by rw [hload, hclear], ?_⟩
  rw [hload, hclear]
  simp [getCacheInfo, getCachedRates, hfail, Except.map]

/-- Witness for C4: the scenario snapshot written at time 0, read one
millisecond past the 24-hour window. -/
theorem c4_witness :
    parseIntJS "0" = some 0 ∧ maxAgeMs + 1 - 0 > maxAgeMs ∧
    (getCachedRates (maxAgeMs + 1) expiredStorage =
      (none, { expiredStorage with
        cacheKey := none, lastUpdateKey := none, offlineKey := none }) ∧
     (getCacheInfo (maxAgeMs + 1)
        (getCachedRates (maxAgeMs + 1) expiredStorage).2).map
        (fun p => p.1.hasCache) = Except.ok false) :=
  ⟨rfl, by decide,
   c4_expired_purge expiredStorage exCache "0" (maxAgeMs + 1) 0
     rfl rfl rfl rfl (by decide)⟩

/-- C5 counterexample: with a corrupt stored snapshot the claim fails —
`getCachedRates` returns absent but does NOT purge: the snapshot, the
timestamp and the mode-flag keys are all still present afterwards (the
catch path has no purge call). -/
theorem c5_cex_no_purge :
    getCachedRates 0 corruptStorage = (none, corruptStorage) ∧
    corruptStorage.cacheKey ≠ none ∧
    corruptStorage.lastUpdateKey ≠ none ∧
    corruptStorage.offlineKey ≠ none :=
  ⟨rfl, by decide, by decide, by decide⟩

/-- C5 (amended): when the stored snapshot is corrupt or unparsable,
`getCachedRates` returns absent and performs no purge — the storage is left
exactly unchanged. -/
theorem c5_corrupt_absent_no_purge (st : Storage) (now : Int)
    (hfail : st.failing = false)
    (hcor : st.cacheKey = some SnapVal.corrupt) :
    getCachedRates now st = (none, st) := by
  cases hlu : st.lastUpdateKey <;> simp [getCachedRates, hfail, hcor, hlu]

/-- Witness for the amended C5. -/
theorem c5_witness :
    getCachedRates 5 corruptStorage = (none, corruptStorage) :=
  c5_corrupt_absent_no_purge corruptStorage 5 rfl rfl

/-- C6 counterexample: the claim fails for `describe` — on a storage whose
accesses throw, `getCacheInfo` propagates the error to its caller, because
its first `localStorage.getItem` call sits outside every `try` block. -/
theorem c6_cex_getCacheInfo_raises :
    getCacheInfo 0 failingStorage = Except.error () := rfl

/-- C6 (amended): every `CacheManager` operation except `getCacheInfo` is
total and degrades under a throwing storage — `save` and `clear` no-op, the
loads and rate queries return absent with no state change, `hasRate`
returns false, the flag setter no-ops and the getter returns false —
while `getCacheInfo` alone propagates the storage error. -/
theorem c6_total_degrade (st : Storage) (now : Int)
    (r : List (String × ℚ)) (b f t : String) (off : Bool)
    (hfail : st.failing = true) :
    saveRatesToCache r b now st = st ∧
    getCachedRates now st = (none, st) ∧
    getCachedRate f t now st = (none, st) ∧
    hasRate f t now st = (false, st) ∧
    clearCache st = st ∧
    setOfflineStatus off st = st ∧
    getOfflineStatus st = false ∧
    getCacheInfo now st = Except.error () := by
  simp [saveRatesToCache, getCachedRates, getCachedRate, hasRate, clearCache,
    setOfflineStatus, getOfflineStatus, getCacheInfo, hfail]

/-- Witness for the amended C6 on the all-throwing storage. -/
theorem c6_witness :
    failingStorage.failing = true ∧
    (saveRatesToCache [("EUR", 2)] "USD" 0 failingStorage = failingStorage ∧
     getCachedRates 0 failingStorage = (none, failingStorage) ∧
     getCachedRate "EUR" "INR" 0 failingStorage = (none, failingStorage) ∧
     hasRate "EUR" "INR" 0 failingStorage = (false, failingStorage) ∧
     clearCache failingStorage = failingStorage ∧
     setOfflineStatus true failingStorage = failingStorage ∧
     getOfflineStatus failingStorage = false ∧
     getCacheInfo 0 failingStorage = Except.error ()) :=
  ⟨rfl, c6_total_degrade failingStorage 0 [("EUR", 2)] "USD" "EUR" "INR"
    true rfl⟩

/-- C7 counterexample: a negative rate value refutes the claim — `save`
stores `EUR ↦ -5` without rejecting it, and `getCachedRate` then returns
`-5` as the rate instead of treating it as "no rate" (the JS truthiness
guard only filters out `0`). -/
theorem c7_cex_negative_rate :
    getCachedRate "USD" "EUR" 0
        (saveRatesToCache [("EUR", -5)] "USD" 0 emptyStorage) =
      (some (-5), saveRatesToCache [("EUR", -5)] "USD" 0 emptyStorage) := by
  rfl

/-- C7 (amended): a zero-valued cached rate is treated as "no rate": every
rate `getCachedRate` returns is built from nonzero cached values only — a
direct hit returns a nonzero value, and every inverse or cross-rate divisor
is nonzero — so no division by a zero-valued cached rate ever occurs.
(`save` performs no validation, and a negative value passes the truthiness
guards: see the counterexample.) -/
theorem c7_no_div_by_zero (st : Storage) (now : Int)
    (fromCurrency toCurrency : String) (r : ℚ)
    (h : (getCachedRate fromCurrency toCurrency now st).1 = some r) :
    ∃ cache, (getCachedRates now st).1 = some cache ∧
      ((cache.baseCurrency = fromCurrency ∧
          lookupRate cache.rates toCurrency = some r ∧ r ≠ 0) ∨
       (cache.baseCurrency = toCurrency ∧
          ∃ q, lookupRate cache.rates fromCurrency = some q ∧ q ≠ 0 ∧
            r = 1 / q) ∨
       (∃ p q, lookupRate cache.rates toCurrency = some p ∧
          lookupRate cache.rates fromCurrency = some q ∧
          p ≠ 0 ∧ q ≠ 0 ∧ r = p / q)) := by
  rcases hm : getCachedRates now st with ⟨cacheOpt, st1⟩
  simp only [getCachedRate, hm] at h
  cases cacheOpt with
  | none => simp at h
  | some cache =>
    refine ⟨cache, rfl, ?_⟩
    simp only at h
    by_cases h1 : cache.baseCurrency = fromCurrency ∧
        jsTruthy (lookupRate cache.rates toCurrency) = true
    · rw [if_pos h1] at h
      have hr : lookupRate cache.rates toCurrency = some r := h
      have ht := h1.2
      rw [hr] at ht
      exact Or.inl ⟨h1.1, hr, by simpa [jsTruthy] using ht⟩
    · rw [if_neg h1] at h
      by_cases h2 : cache.baseCurrency = toCurrency ∧
          jsTruthy (lookupRate cache.rates fromCurrency) = true
      · rw [if_pos h2] at h
        obtain ⟨q, hq, hq0⟩ := (jsTruthy_iff _).mp h2.2
        have hr : Option.map (fun x => 1 / x)
            (lookupRate cache.rates fromCurrency) = some r := h
        rw [hq] at hr
        refine Or.inr (Or.inl ⟨h2.1, q, hq, hq0, ?_⟩)
        have hqr : (1 / q : ℚ) = r := by simpa using hr
        exact hqr.symm
      · rw [if_neg h2] at h
        by_cases h3 : jsTruthy (lookupRate cache.rates fromCurrency) = true ∧
            jsTruthy (lookupRate cache.rates toCurrency) = true
        · rw [if_pos h3] at h
          obtain ⟨q, hq, hq0⟩ := (jsTruthy_iff _).mp h3.1
          obtain ⟨p, hp, hp0⟩ := (jsTruthy_iff _).mp h3.2
          have hr : some ((lookupRate cache.rates toCurrency).getD 0 /
              (lookupRate cache.rates fromCurrency).getD 0) = some r := h
          rw [hq, hp] at hr
          refine Or.inr (Or.inr ⟨p, q, hp, hq, hp0, hq0, ?_⟩)
          have hpr : (p / q : ℚ) = r := by simpa using hr
          exact hpr.symm
        · rw [if_neg h3] at h
          exact absurd (h : (none : Option ℚ) = some r) (by simp)

/-- Witness for the amended C7: the scenario lookup `USD → INR` returns the
direct rate 83, which the theorem certifies as coming from nonzero cached
values. -/
theorem c7_witness :
    (getCachedRate "USD" "INR" 0 exStorage).1 = some 83 ∧
    (∃ cache, (getCachedRates 0 exStorage).1 = some cache ∧
      ((cache.baseCurrency = "USD" ∧
          lookupRate cache.rates "INR" = some 83 ∧ (83 : ℚ) ≠ 0) ∨
       (cache.baseCurrency = "INR" ∧
          ∃ q, lookupRate cache.rates "USD" = some q ∧ q ≠ 0 ∧
            (83 : ℚ) = 1 / q) ∨
       (∃ p q, lookupRate cache.rates "INR" = some p ∧
          lookupRate cache.rates "USD" = some q ∧
          p ≠ 0 ∧ q ≠ 0 ∧ (83 : ℚ) = p / q))) :=
  ⟨by rfl, c7_no_div_by_zero exStorage 0 "USD" "INR" 83 (by rfl)⟩

/-- C8 counterexample: the rejection is not reported to the caller — on the
disconnected state the action no-ops, and the value handed back to the
caller is identical to the one returned on a successful exit from the
connected state (the JS function returns `undefined` on both paths), so a
caller cannot observe that the action did not apply. -/
theorem c8_cex_rejection_not_reported :
    (exitOfflineMode offlineDisconnected).1 = offlineDisconnected ∧
    (exitOfflineMode offlineDisconnected).2 =
      (exitOfflineMode onlineFlagged).2 :=
  ⟨rfl, rfl⟩

/-- C8 (amended): when the live signal reports connected, `exitOfflineMode`
clears the in-memory mode and persists the flag as `"false"` (unless the
storage write itself throws, in which case the flag is untouched); when
disconnected it is a no-op on both the in-memory state and the persisted
flag; on either path the caller receives the same unit value, so the
rejection is only console-logged, never reported to the caller. -/
theorem c8_exitOffline_behavior (s : NetState) :
    (exitOfflineMode s).1.isOnline = s.isOnline ∧
    (exitOfflineMode s).1.isOfflineMode =
      (if s.isOnline then false else s.isOfflineMode) ∧
    (exitOfflineMode s).1.storage.offlineKey =
      (if s.isOnline ∧ s.storage.failing = false then some "false"
       else s.storage.offlineKey) ∧
    (exitOfflineMode s).1.storage.cacheKey = s.storage.cacheKey ∧
    (exitOfflineMode s).1.storage.lastUpdateKey = s.storage.lastUpdateKey ∧
    (exitOfflineMode s).2 = () := by
  obtain ⟨onl, mode, st⟩ := s
  cases onl with
  | false => simp [exitOfflineMode]
  | true =>
    cases hf : st.failing with
    | false => simp [exitOfflineMode, setOfflineStatus, hf]
    | true => simp [exitOfflineMode, setOfflineStatus, hf]

/-- C9: with a stored, unexpired snapshot whose rates table has no entry
for the base currency itself, `getCachedRate(B, B)` returns absent and
leaves the storage unchanged — no resolution case matches. -/
theorem c9_base_to_base_absent (st : Storage) (cache : CacheData)
    (lu : String) (now : Int) (hfail : st.failing = false)
    (hsnap : st.cacheKey = some (SnapVal.json cache))
    (hlu : st.lastUpdateKey = some lu)
    (hexp : ageExceeds now lu maxAgeMs = false)
    (hbase : lookupRate cache.rates cache.baseCurrency = none) :
    getCachedRate cache.baseCurrency cache.baseCurrency now st =
      (none, st) := by
  have hload := getCachedRates_fresh hfail hsnap hlu hexp
  simp [getCachedRate, hload, hbase, jsTruthy]

/-- Witness for C9 on the scenario snapshot, whose rates table has no
`USD` entry. -/
theorem c9_witness :
    getCachedRate "USD" "USD" 0 exStorage = (none, exStorage) :=
  c9_base_to_base_absent exStorage exCache "0" 0 rfl rfl rfl rfl rfl

/-- C10: `getCachedRates` returns absent with no side effect whenever the
separate last-update key is missing, even with a snapshot record present;
and for a present snapshot the loaded value is decided by
`ageExceeds now lu` — a function of the last-update string alone, which the
`timestamp` field embedded in the snapshot record never enters. -/
theorem c10_lastUpdate_gate (st1 st2 : Storage) (now1 now2 : Int)
    (cache : CacheData) (lu : String)
    (h1f : st1.failing = false) (h1l : st1.lastUpdateKey = none)
    (h2f : st2.failing = false)
    (h2c : st2.cacheKey = some (SnapVal.json cache))
    (h2l : st2.lastUpdateKey = some lu) :
    getCachedRates now1 st1 = (none, st1) ∧
    (getCachedRates now2 st2).1 =
      (if ageExceeds now2 lu maxAgeMs then none else some cache) := by
  constructor
  · cases hck : st1.cacheKey with
    | none => simp [getCachedRates, h1f, hck, h1l]
    | some sv => cases sv <;> simp [getCachedRates, h1f, hck, h1l]
  · cases hexp : ageExceeds now2 lu maxAgeMs <;>
      simp [getCachedRates, h2f, h2c, h2l, hexp]

/-- Witness for C10: a snapshot record with no last-update key loads as
absent; on the scenario storage the load is decided by the last-update
string. -/
theorem c10_witness :
    getCachedRates 7 noTimestampStorage = (none, noTimestampStorage) ∧
    (getCachedRates 0 exStorage).1 =
      (if ageExceeds 0 "0" maxAgeMs then none else some exCache) :=
  c10_lastUpdate_gate noTimestampStorage exStorage 7 0 exCache "0"
    rfl rfl rfl rfl rfl
